import Mathlib

/-!
Shallow embedding of the ResourceType-aware authorization core of the
repository (src/src/services/authService.resourceType.ts together with the
shared type definitions), and theorems settling the specification claims
about it.

Modelling conventions:
* TypeScript strings are Lean `String`; the JS `startsWith` and `includes`
  string methods are embedded as executable character-list functions.
* Fields that the runtime defends against being `undefined`/`null`
  (`resourceType`, `clearanceLevel`, optional response fields, localStorage
  reads) are `Option`s, even where the TypeScript interface declares them
  required: the code's own guards (`!user?.resourceType`, `|| false`, ...)
  only make sense for data that can be absent at runtime (tampered storage,
  provider responses).
* The service's network effects are made explicit: each method that performs
  a `fetch` takes the outcome of that remote call as an argument (a sum of
  "remote failure" — covering network errors, non-OK responses and JSON
  parse failures, all of which land in the same `catch` — and a parsed
  response).
* The mutable singleton state (`currentUser`, `authToken`, localStorage) is
  an explicit `AuthState` record; methods become state transformers.
-/

/-- JS `String.prototype.startsWith`: `pat` is a prefix of `s`. -/
def strStartsWith (s pat : String) : Bool :=
  pat.toList.isPrefixOf s.toList

/-- Helper for JS `includes`: does `pat` occur as a contiguous subsequence? -/
def listContainsSeq (pat : List Char) : List Char → Bool
  | [] => pat.isEmpty
  | c :: tail => pat.isPrefixOf (c :: tail) || listContainsSeq pat tail

/-- JS `String.prototype.includes`: `pat` occurs as a substring of `s`. -/
def strIncludes (s pat : String) : Bool :=
  listContainsSeq pat.toList s.toList

/-- JS truthiness of a possibly-absent string: `null`/`undefined` and the
empty string are falsy, every other string is truthy. -/
def jsStringTruthy : Option String → Bool
  | some s => !(s == "")
  | none => false

/-- JS `a || dflt` on a possibly-absent string: falls back to `dflt` when the
string is absent or empty (falsy). -/
def jsOrElse (s : Option String) (dflt : String) : String :=
  match s with
  | some v => if v == "" then dflt else v
  | none => dflt

/-- The closed `ResourceType` enumeration from the shared type definitions. -/
inductive ResourceType where
  | User : ResourceType
  | AgentWorkerService : ResourceType
  | DataSource : ResourceType
  | ComputeResource : ResourceType
  | Integration : ResourceType
  | Tool : ResourceType
  | Dashboard : ResourceType
  | Workflow : ResourceType
deriving DecidableEq, Repr

/-- The `SecurityClearanceLevel` enumeration (numeric TS enum). -/
inductive SecurityClearanceLevel where
  | Public : SecurityClearanceLevel
  | Internal : SecurityClearanceLevel
  | Confidential : SecurityClearanceLevel
  | Restricted : SecurityClearanceLevel
deriving DecidableEq, Repr

/-- The numeric value of each clearance level, exactly as assigned in the TS
enum: `Public = 1, Internal = 2, Confidential = 3, Restricted = 4`. -/
def SecurityClearanceLevel.toNat : SecurityClearanceLevel → Nat
  | SecurityClearanceLevel.Public => 1
  | SecurityClearanceLevel.Internal => 2
  | SecurityClearanceLevel.Confidential => 3
  | SecurityClearanceLevel.Restricted => 4

/-- The `AuthUser` principal record. `resourceType` and `clearanceLevel` are
`Option`s because the service explicitly guards against their absence at
runtime (session restore from tampered storage, incomplete provider
responses), even though the TS interface declares them required. -/
structure AuthUser where
  userId : String
  username : String
  displayName : String
  email : String
  resourceType : Option ResourceType
  clearanceLevel : Option SecurityClearanceLevel
  department : String
  allowedPermissions : List String
  restrictedActions : List String
  groupMemberships : List String
  roles : List String
  isAuthenticated : Bool
  requiresMfa : Option Bool
deriving DecidableEq, Repr

/-- Embedding of `isPermissionRestrictedForResourceType` (the IMMUTABLE
classification registry): `AgentWorkerService` is denied permissions
starting with `ui.` or `dashboard.` or containing the substring
`user.profile.edit` (the source uses `permission.includes(...)`);
`DataSource` is denied permissions starting with `compute.control` or
`compute.provision`; every other pair is unrestricted. -/
def isPermissionRestrictedForResourceType
    (resourceType : ResourceType) (permission : String) : Bool :=
  if resourceType = ResourceType.AgentWorkerService then
    strStartsWith permission "ui." ||
    strStartsWith permission "dashboard." ||
    strIncludes permission "user.profile.edit"
  else if resourceType = ResourceType.DataSource then
    strStartsWith permission "compute.control" ||
    strStartsWith permission "compute.provision"
  else
    false

/-- Runtime (JS) behaviour of `isPermissionRestrictedForResourceType` when
the `resourceType` argument is `undefined`: `undefined` compares unequal to
both enum members, so the function falls through to `false`. -/
def isPermissionRestrictedForResourceTypeJS
    (resourceType : Option ResourceType) (permission : String) : Bool :=
  match resourceType with
  | some rt => isPermissionRestrictedForResourceType rt permission
  | none => false

/-- The pruning step of `validateUserResourceTypeConstraints` (line 78 of the
source): keep exactly the permissions that are not restricted for the
principal's `ResourceType`. -/
def prunePermissions (rt : ResourceType) (perms : List String) : List String :=
  perms.filter (fun permission => !isPermissionRestrictedForResourceType rt permission)

/-- Outcome of `validateUserResourceTypeConstraints`: the user is either
rejected outright (missing `resourceType`: the method clears the session)
or accepted, possibly after pruning. The `Bool` records whether a pruning
write-back (`saveToStorage`) occurred. -/
inductive ValidateOutcome where
  | cleared : ValidateOutcome
  | accepted : AuthUser → Bool → ValidateOutcome
deriving DecidableEq, Repr

/-- Embedding of `validateUserResourceTypeConstraints`: reject a user with no
`resourceType`; otherwise compute `invalidPermissions` (the restricted ones)
and, when nonempty, replace `allowedPermissions` by the pruned list and
persist the corrected principal. -/
def validateUserResourceTypeConstraints (user : AuthUser) : ValidateOutcome :=
  match user.resourceType with
  | none => ValidateOutcome.cleared
  | some rt =>
    let invalidPermissions := user.allowedPermissions.filter
      (fun permission => isPermissionRestrictedForResourceType rt permission)
    if invalidPermissions.length > 0 then
      ValidateOutcome.accepted
        { user with allowedPermissions := prunePermissions rt user.allowedPermissions }
        true
    else
      ValidateOutcome.accepted user false

/-- The claim C2 reading of the restriction registry, written from the spec's
words: for `AgentWorkerService` the permission is restricted when prefixed
`ui.` or `dashboard.` or when it is EXACTLY the capability
`user.profile.edit`; for `DataSource` when prefixed `compute.control` or
`compute.provision`; no other pair is restricted. -/
def restrictedPerClaimC2 (resourceType : ResourceType) (permission : String) : Prop :=
  (resourceType = ResourceType.AgentWorkerService ∧
    (strStartsWith permission "ui." = true ∨
     strStartsWith permission "dashboard." = true ∨
     permission = "user.profile.edit")) ∨
  (resourceType = ResourceType.DataSource ∧
    (strStartsWith permission "compute.control" = true ∨
     strStartsWith permission "compute.provision" = true))

/-- The amended reading of the registry: as `restrictedPerClaimC2`, except
that the `user.profile.edit` rule matches any permission CONTAINING that
capability as a substring (the source's `includes`), not only the exact
string. -/
def restrictedPerClaimC2Amended (resourceType : ResourceType) (permission : String) : Prop :=
  (resourceType = ResourceType.AgentWorkerService ∧
    (strStartsWith permission "ui." = true ∨
     strStartsWith permission "dashboard." = true ∨
     strIncludes permission "user.profile.edit" = true)) ∨
  (resourceType = ResourceType.DataSource ∧
    (strStartsWith permission "compute.control" = true ∨
     strStartsWith permission "compute.provision" = true))

/-- C2: the claim's characterization fails on the code: the permission
`admin.user.profile.edit` is not prefixed `ui.` or `dashboard.` and is not
exactly `user.profile.edit`, so the claim predicts "not restricted" for
`AgentWorkerService`, yet the code restricts it (substring match). -/
theorem C2_claim_counterexample :
    isPermissionRestrictedForResourceType ResourceType.AgentWorkerService
      "admin.user.profile.edit" = true ∧
    ¬ restrictedPerClaimC2 ResourceType.AgentWorkerService "admin.user.profile.edit" := by
  constructor
  · decide
  · unfold restrictedPerClaimC2
    decide

/-- C2 (amended): `isPermissionRestrictedForResourceType type permission` is
true exactly when (a) `type = AgentWorkerService` and the permission starts
with `ui.` or `dashboard.` or CONTAINS the substring `user.profile.edit`,
or (b) `type = DataSource` and the permission starts with `compute.control`
or `compute.provision`; every other pair, including unknown permission
strings, is unrestricted. The function is a total Lean function, hence pure
and never throwing. -/
theorem C2_restriction_characterization :
    ∀ (resourceType : ResourceType) (permission : String),
      isPermissionRestrictedForResourceType resourceType permission = true ↔
        restrictedPerClaimC2Amended resourceType permission := by
  intro resourceType permission
  cases resourceType <;>
    simp [isPermissionRestrictedForResourceType, restrictedPerClaimC2Amended,
      Bool.or_eq_true, or_assoc]

/-- The three localStorage slots used by the service (`whs_auth_token`,
`whs_auth_user`, `whs_refresh_token`). The user slot holds the parsed
principal snapshot; `none` covers the key being absent as well as the stored
JSON being falsy. -/
structure StoredSession where
  token : Option String
  user : Option AuthUser
  refreshToken : Option String
deriving DecidableEq, Repr

/-- The mutable singleton state of `ResourceTypeAuthService`: the in-memory
`currentUser` and `authToken` fields plus the persistent storage. -/
structure AuthState where
  currentUser : Option AuthUser
  authToken : Option String
  storage : StoredSession
deriving DecidableEq, Repr

/-- Embedding of `clearStorage`: remove all three storage keys and null out
the in-memory fields. -/
def clearStorage (_st : AuthState) : AuthState :=
  { currentUser := none
    authToken := none
    storage := { token := none, user := none, refreshToken := none } }

/-- Embedding of `saveToStorage`: write token and principal snapshot; the
refresh-token key is written only when a truthy refresh token is supplied
(`if (refreshToken)`), otherwise the previous value stays. -/
def saveToStorage (st : AuthState) (user : AuthUser) (token : String)
    (refreshToken : Option String) : AuthState :=
  { st with storage :=
      { token := some token
        user := some user
        refreshToken :=
          if jsStringTruthy refreshToken then refreshToken
          else st.storage.refreshToken } }

/-- Embedding of `loadFromStorage` (run by the constructor, i.e. session
restore): starting from a null in-memory state, when both the token and the
principal snapshot are present (and the token truthy), install them and
re-run `validateUserResourceTypeConstraints`; a user without `resourceType`
clears the whole session, a pruned user is written back to storage. A JSON
parse failure in the source lands in a catch that calls `clearStorage`; it
accepts no principal and is subsumed by the absent-user case. -/
def loadFromStorage (storage : StoredSession) : AuthState :=
  match storage.token, storage.user with
  | some token, some user =>
    if token == "" then
      { currentUser := none, authToken := none, storage := storage }
    else
      match validateUserResourceTypeConstraints user with
      | ValidateOutcome.cleared =>
        clearStorage { currentUser := some user, authToken := some token, storage := storage }
      | ValidateOutcome.accepted user' didPrune =>
        let st : AuthState :=
          { currentUser := some user', authToken := some token, storage := storage }
        if didPrune then saveToStorage st user' token storage.refreshToken else st
  | _, _ => { currentUser := none, authToken := none, storage := storage }

/-- The `AuthenticationResponse` record of the shared type definitions; all
fields but `success` are optional. -/
structure AuthenticationResponse where
  success : Bool
  user : Option AuthUser
  token : Option String
  refreshToken : Option String
  expiresAt : Option String
  message : Option String
  error : Option String
  requiresMfa : Option Bool
deriving DecidableEq, Repr

/-- Outcome of the login `fetch` to the identity provider: either the whole
call threw (network error or unparseable body — the catch at the end of
`login`), or it produced an HTTP status (`ok`) and a parsed body. -/
inductive LoginOutcome where
  | networkFailure : LoginOutcome
  | response : Bool → AuthenticationResponse → LoginOutcome
deriving DecidableEq, Repr

/-- Embedding of `login`. The provider interaction is the `outcome`
argument; the function returns the new service state and the
`AuthenticationResponse` handed back to the caller. Notes kept from the
source: a user whose `resourceType` is absent is refused with
`Invalid authentication response - missing ResourceType` before any state is
touched (line 195; `validateUserResourceTypeConstraints` returning
`cleared` is exactly that case); on acceptance the possibly-pruned user is
installed and persisted. The intermediate `saveToStorage` that a pruning
performs inside `validateUserResourceTypeConstraints` is immediately
overwritten by the final `saveToStorage` with the same user, the fresh
token and the response's refresh token, so only the final write appears. -/
def loginStep (st : AuthState) (outcome : LoginOutcome) :
    AuthState × AuthenticationResponse :=
  match outcome with
  | LoginOutcome.networkFailure =>
    (st, { success := false, user := none, token := none, refreshToken := none,
           expiresAt := none, message := none,
           error := some "Login failed. Please try again.", requiresMfa := none })
  | LoginOutcome.response ok result =>
    if !ok || !result.success then
      (st, { success := false, user := none, token := none, refreshToken := none,
             expiresAt := none, message := none,
             error := some (jsOrElse result.error "Authentication failed"),
             requiresMfa := some (result.requiresMfa.getD false) })
    else if result.requiresMfa.getD false then
      (st, { success := false, user := none, token := none, refreshToken := none,
             expiresAt := none, message := some "MFA verification required",
             error := none, requiresMfa := some true })
    else
      match result.user, result.token with
      | some user, some token =>
        if token == "" then
          (st, { success := false, user := none, token := none, refreshToken := none,
                 expiresAt := none, message := none,
                 error := some "Invalid response from authentication service",
                 requiresMfa := none })
        else
          match validateUserResourceTypeConstraints user with
          | ValidateOutcome.cleared =>
            (st, { success := false, user := none, token := none, refreshToken := none,
                   expiresAt := none, message := none,
                   error := some "Invalid authentication response - missing ResourceType",
                   requiresMfa := none })
          | ValidateOutcome.accepted user' _didPrune =>
            (saveToStorage
               { st with currentUser := some user', authToken := some token }
               user' token result.refreshToken,
             { success := true, user := some user', token := some token,
               refreshToken := result.refreshToken, expiresAt := result.expiresAt,
               message := some "Authentication successful", error := none,
               requiresMfa := none })
      | _, _ =>
        (st, { success := false, user := none, token := none, refreshToken := none,
               expiresAt := none, message := none,
               error := some "Invalid response from authentication service",
               requiresMfa := none })

/-- Embedding of `isAuthenticated`:
`!!(currentUser?.isAuthenticated && currentUser?.resourceType)`. -/
def isAuthenticated (st : AuthState) : Bool :=
  match st.currentUser with
  | some user => user.isAuthenticated && user.resourceType.isSome
  | none => false

/-- Embedding of `hasPermission`: membership in `allowedPermissions`
(defaulting to false with no user), then — only when a `resourceType` is
present — the query-time re-check against the immutable restrictions. -/
def hasPermission (st : AuthState) (permission : String) : Bool :=
  let has := match st.currentUser with
    | some user => user.allowedPermissions.contains permission
    | none => false
  match st.currentUser with
  | some user =>
    match user.resourceType with
    | some rt =>
      if has then !isPermissionRestrictedForResourceType rt permission else has
    | none => has
  | none => has

/-- Embedding of `hasMinimumClearanceLevel`: false without a user or a
clearance value (every enum value 1..4 is truthy, so the JS falsiness guard
coincides with presence), else the numeric comparison
`clearanceLevel >= requiredLevel`. -/
def hasMinimumClearanceLevel (st : AuthState) (requiredLevel : SecurityClearanceLevel) : Bool :=
  match st.currentUser with
  | none => false
  | some user =>
    match user.clearanceLevel with
    | none => false
    | some level =>
      decide (SecurityClearanceLevel.toNat requiredLevel ≤ SecurityClearanceLevel.toNat level)

/-- The spec's ClearanceComparator `meetsMinimum(actual, required)`:
`actual >= required` under the numeric enum values. -/
def meetsMinimum (actual required : SecurityClearanceLevel) : Bool :=
  decide (SecurityClearanceLevel.toNat required ≤ SecurityClearanceLevel.toNat actual)

/-- Embedding of `canAccessUI`: false without a user or `resourceType`,
otherwise the hard rule `resourceType != AgentWorkerService`. -/
def canAccessUI (st : AuthState) : Bool :=
  match st.currentUser with
  | none => false
  | some user =>
    match user.resourceType with
    | none => false
    | some rt => decide (rt ≠ ResourceType.AgentWorkerService)

/-- The `CompatibilityResult` record of the shared type definitions. -/
structure CompatibilityResult where
  isCompatible : Bool
  restrictions : List String
  warnings : List String
  recommendations : List String
deriving DecidableEq, Repr

/-- Outcome of the compatibility `fetch`: `failure` covers a network error, a
non-OK HTTP status (which the source turns into a thrown error) and an
unparseable body — all reach the same `catch`; `success` is a parsed
`CompatibilityResult`. -/
inductive RemoteCompatOutcome where
  | failure : RemoteCompatOutcome
  | success : CompatibilityResult → RemoteCompatOutcome
deriving DecidableEq, Repr

/-- Result of `checkResourceTypeCompatibility` together with whether the
remote constraints service was consulted at all. -/
structure CompatCheckResult where
  result : CompatibilityResult
  remoteCalled : Bool
deriving DecidableEq, Repr

/-- Embedding of `checkResourceTypeCompatibility`: with no authenticated
principal or no `resourceType` the local fail-safe result is returned
without any remote call; otherwise the remote outcome is consulted, and a
failed remote check yields the fail-closed catch result. -/
def checkResourceTypeCompatibility (st : AuthState) (_targetResourceType : ResourceType)
    (_operation : String) (remote : RemoteCompatOutcome) : CompatCheckResult :=
  match st.currentUser with
  | none =>
    { result := { isCompatible := false
                  restrictions := ["No authenticated user or ResourceType"]
                  warnings := ["Authentication required"]
                  recommendations := ["Please log in first"] }
      remoteCalled := false }
  | some user =>
    match user.resourceType with
    | none =>
      { result := { isCompatible := false
                    restrictions := ["No authenticated user or ResourceType"]
                    warnings := ["Authentication required"]
                    recommendations := ["Please log in first"] }
        remoteCalled := false }
    | some _ =>
      match remote with
      | RemoteCompatOutcome.failure =>
        { result := { isCompatible := false
                      restrictions := ["Compatibility check failed"]
                      warnings := ["Unable to validate ResourceType constraints"]
                      recommendations := ["Contact system administrator"] }
          remoteCalled := true }
      | RemoteCompatOutcome.success r =>
        { result := r, remoteCalled := true }

/-- An `AgentWorkerService` principal as a provider might deliver it, holding
one UI permission and one task permission (the spec's pruning scenario). -/
def awsRawUser : AuthUser :=
  { userId := "svc-001", username := "worker", displayName := "Worker Service",
    email := "worker@example.test",
    resourceType := some ResourceType.AgentWorkerService,
    clearanceLevel := some SecurityClearanceLevel.Restricted,
    department := "automation",
    allowedPermissions := ["ui.dashboard.view", "tasks.execute"],
    restrictedActions := [], groupMemberships := [], roles := ["admin"],
    isAuthenticated := true, requiresMfa := none }

/-- The same service principal after constraint pruning. -/
def awsPrunedUser : AuthUser :=
  { awsRawUser with allowedPermissions := ["tasks.execute"] }

/-- A session state holding the pruned service principal. -/
def awsState : AuthState :=
  { currentUser := some awsPrunedUser, authToken := some "token-aws",
    storage := { token := some "token-aws", user := some awsPrunedUser,
                 refreshToken := none } }

/-- A `DataSource` principal whose stored permissions wrongly contain
`compute.control` (the corrupted-storage scenario). -/
def dsUser : AuthUser :=
  { userId := "ds-001", username := "feed", displayName := "Data Feed",
    email := "feed@example.test", resourceType := some ResourceType.DataSource,
    clearanceLevel := some SecurityClearanceLevel.Internal, department := "data",
    allowedPermissions := ["compute.control", "data.read"],
    restrictedActions := [], groupMemberships := [], roles := [],
    isAuthenticated := true, requiresMfa := none }

/-- A session state holding the corrupted `DataSource` principal. -/
def dsState : AuthState :=
  { currentUser := some dsUser, authToken := some "token-ds",
    storage := { token := some "token-ds", user := some dsUser,
                 refreshToken := none } }

/-- A fully populated principal whose `resourceType` is absent; its raw
`isAuthenticated` flag is set. -/
def userNoType : AuthUser :=
  { userId := "u-000", username := "ghost", displayName := "Ghost",
    email := "ghost@example.test", resourceType := none,
    clearanceLevel := some SecurityClearanceLevel.Confidential,
    department := "ops", allowedPermissions := ["ui.view", "tasks.execute"],
    restrictedActions := [], groupMemberships := [], roles := ["admin"],
    isAuthenticated := true, requiresMfa := none }

/-- A session state holding the principal without a `resourceType`. -/
def noTypeState : AuthState :=
  { currentUser := some userNoType, authToken := some "token-x",
    storage := { token := some "token-x", user := some userNoType,
                 refreshToken := none } }

/-- The service state with no session at all. -/
def emptyState : AuthState :=
  { currentUser := none, authToken := none,
    storage := { token := none, user := none, refreshToken := none } }

/-- A provider response that reports success with a token but whose user
lacks a `resourceType`. -/
def missingTypeResponse : AuthenticationResponse :=
  { success := true, user := some userNoType, token := some "token-x",
    refreshToken := none, expiresAt := none, message := none, error := none,
    requiresMfa := none }

/-- Storage contents with a valid token but a tampered service principal that
still holds a UI permission. -/
def tamperedStorage : StoredSession :=
  { token := some "token-aws", user := some awsRawUser, refreshToken := none }

/-- The constraint invariant on accepted principals: a `ResourceType` is
present and no held permission is restricted for it. -/
def acceptedPrincipalOK (user : AuthUser) : Prop :=
  ∃ rt, user.resourceType = some rt ∧
    ∀ permission ∈ user.allowedPermissions,
      isPermissionRestrictedForResourceType rt permission = false

/-- Every principal the enforcer accepts satisfies the constraint
invariant. -/
theorem validate_accepted_ok (user user' : AuthUser) (d : Bool)
    (h : validateUserResourceTypeConstraints user = ValidateOutcome.accepted user' d) :
    acceptedPrincipalOK user' := by
  unfold validateUserResourceTypeConstraints at h
  cases hrt : user.resourceType with
  | none => rw [hrt] at h; cases h
  | some rt =>
    rw [hrt] at h
    simp only at h
    split at h
    · cases h
      refine ⟨rt, rfl, ?_⟩
      intro permission hp
      have := (List.mem_filter.mp hp).2
      simpa using this
    · cases h
      refine ⟨rt, hrt, ?_⟩
      intro permission hp
      rename_i hlen
      have hnil : user.allowedPermissions.filter
          (fun permission => isPermissionRestrictedForResourceType rt permission) = [] := by
        have := Nat.eq_zero_of_not_pos hlen
        exact List.length_eq_zero.mp this
      have := List.filter_eq_nil_iff.mp hnil permission hp
      simpa using this

/-- A principal already satisfying the invariant passes the enforcer
unchanged and without pruning. -/
theorem validate_of_ok (user : AuthUser) (h : acceptedPrincipalOK user) :
    validateUserResourceTypeConstraints user = ValidateOutcome.accepted user false := by
  obtain ⟨rt, hrt, hall⟩ := h
  unfold validateUserResourceTypeConstraints
  rw [hrt]
  have hfil : user.allowedPermissions.filter
      (fun permission => isPermissionRestrictedForResourceType rt permission) = [] :=
    List.filter_eq_nil_iff.mpr (fun a ha => by simp [hall a ha])
  simp [hfil]

/-- C1: every principal accepted by the authorization core — immediately
after a successful login and on every session restore from persisted
storage — carries a `ResourceType`, and none of its `allowedPermissions` is
restricted for that type: enforcement prunes every restricted permission
before the principal becomes the current user. -/
theorem C1_accepted_principal_constraints :
    (∀ (st : AuthState) (outcome : LoginOutcome) (user : AuthUser),
        (loginStep st outcome).2.success = true →
        (loginStep st outcome).1.currentUser = some user →
        acceptedPrincipalOK user) ∧
    (∀ (storage : StoredSession) (user : AuthUser),
        (loadFromStorage storage).currentUser = some user →
        acceptedPrincipalOK user) := by
  constructor
  · intro st outcome user hsuc hcur
    cases outcome with
    | networkFailure => simp [loginStep] at hsuc
    | response ok result =>
      by_cases h1 : (!ok || !result.success) = true
      · simp [loginStep, h1] at hsuc
      · by_cases h2 : result.requiresMfa.getD false = true
        · simp [loginStep, h1, h2] at hsuc
        · cases hu : result.user with
          | none => simp [loginStep, h1, h2, hu] at hsuc
          | some user0 =>
            cases ht : result.token with
            | none => simp [loginStep, h1, h2, hu, ht] at hsuc
            | some token0 =>
              by_cases h3 : (token0 == "") = true
              · simp [loginStep, h1, h2, hu, ht, h3] at hsuc
              · cases hv : validateUserResourceTypeConstraints user0 with
                | cleared => simp [loginStep, h1, h2, hu, ht, h3, hv] at hsuc
                | accepted user' didPrune =>
                  have hc' : some user' = some user := by
                    rw [← hcur]
                    simp [loginStep, h1, h2, hu, ht, h3, hv, saveToStorage]
                  cases hc'
                  exact validate_accepted_ok _ _ _ hv
  · intro storage user hcur
    cases htok : storage.token with
    | none =>
      cases hus : storage.user with
      | none => simp [loadFromStorage, htok, hus] at hcur
      | some user0 => simp [loadFromStorage, htok, hus] at hcur
    | some token =>
      cases hus : storage.user with
      | none => simp [loadFromStorage, htok, hus] at hcur
      | some user0 =>
        by_cases hemp : (token == "") = true
        · simp [loadFromStorage, htok, hus, hemp] at hcur
        · cases hv : validateUserResourceTypeConstraints user0 with
          | cleared =>
            simp [loadFromStorage, htok, hus, hemp, hv, clearStorage] at hcur
          | accepted user' didPrune =>
            have hc' : some user' = some user := by
              rw [← hcur]
              cases didPrune <;>
                simp [loadFromStorage, htok, hus, hemp, hv, saveToStorage]
            cases hc'
            exact validate_accepted_ok _ _ _ hv

/-- Witness for C1: restoring a session whose stored service principal was
tampered to hold a UI permission yields the pruned principal, which
satisfies the constraint invariant. -/
theorem C1_witness : acceptedPrincipalOK awsPrunedUser :=
  C1_accepted_principal_constraints.2 tamperedStorage awsPrunedUser (by decide)

/-- C3: for every current principal, `hasPermission p` is true exactly when
`p` is held in `allowedPermissions` and the immutable restriction re-check
for the principal's `resourceType` (with JS undefined semantics) is false. -/
theorem C3_hasPermission_characterization
    (st : AuthState) (user : AuthUser) (permission : String)
    (h : st.currentUser = some user) :
    hasPermission st permission = true ↔
      (permission ∈ user.allowedPermissions ∧
       isPermissionRestrictedForResourceTypeJS user.resourceType permission = false) := by
  unfold hasPermission isPermissionRestrictedForResourceTypeJS
  rw [h]
  cases hrt : user.resourceType with
  | none => simp [hrt]
  | some rt =>
    by_cases hb : permission ∈ user.allowedPermissions <;>
      cases hr : isPermissionRestrictedForResourceType rt permission <;>
        simp [hrt, hb, hr]

/-- Witness for C3: the query-time re-check at the corrupted `DataSource`
principal; in particular `hasPermission "compute.control"` is false even
though `compute.control` sits in the stored `allowedPermissions`. -/
theorem C3_witness :
    (hasPermission dsState "compute.control" = true ↔
      ("compute.control" ∈ dsUser.allowedPermissions ∧
       isPermissionRestrictedForResourceTypeJS dsUser.resourceType
         "compute.control" = false)) ∧
    hasPermission dsState "compute.control" = false :=
  ⟨C3_hasPermission_characterization dsState dsUser "compute.control" rfl, by decide⟩

/-- C4: `canAccessUI` is false with no current principal or no
`resourceType`; otherwise it is true exactly when the `resourceType` is not
`AgentWorkerService` — for any permissions and clearance the principal may
hold. -/
theorem C4_canAccessUI_characterization :
    (∀ st : AuthState, st.currentUser = none → canAccessUI st = false) ∧
    (∀ (st : AuthState) (user : AuthUser),
      st.currentUser = some user → user.resourceType = none →
      canAccessUI st = false) ∧
    (∀ (st : AuthState) (user : AuthUser) (rt : ResourceType),
      st.currentUser = some user → user.resourceType = some rt →
      (canAccessUI st = true ↔ rt ≠ ResourceType.AgentWorkerService)) := by
  refine ⟨?_, ?_, ?_⟩
  · intro st h
    simp [canAccessUI, h]
  · intro st user h hrt
    simp [canAccessUI, h, hrt]
  · intro st user rt h hrt
    simp [canAccessUI, h, hrt]

/-- Witness for C4: the service principal with `AgentWorkerService` type —
despite admin role, `Restricted` clearance and a task permission — cannot
access the UI. -/
theorem C4_witness :
    (canAccessUI awsState = true ↔
      ResourceType.AgentWorkerService ≠ ResourceType.AgentWorkerService) ∧
    canAccessUI awsState = false :=
  ⟨C4_canAccessUI_characterization.2.2 awsState awsPrunedUser
      ResourceType.AgentWorkerService rfl rfl,
   by decide⟩

/-- C5: `isAuthenticated` is true exactly when a current principal is
present, its authenticated flag is set, and its `resourceType` is present;
in particular it is false whenever `resourceType` is absent, even with
`isAuthenticated := true` on the raw principal. -/
theorem C5_isAuthenticated_characterization :
    (∀ st : AuthState,
      isAuthenticated st = true ↔
        ∃ user, st.currentUser = some user ∧ user.isAuthenticated = true ∧
          user.resourceType.isSome = true) ∧
    (∀ (st : AuthState) (user : AuthUser),
      st.currentUser = some user → user.resourceType = none →
      isAuthenticated st = false) := by
  constructor
  · intro st
    cases hc : st.currentUser with
    | none => simp [isAuthenticated, hc]
    | some u => simp [isAuthenticated, hc, Bool.and_eq_true]
  · intro st user hc hrt
    simp [isAuthenticated, hc, hrt]

/-- Witness for C5: a fully populated principal with raw
`isAuthenticated := true` but no `resourceType` is not authenticated. -/
theorem C5_witness : isAuthenticated noTypeState = false :=
  C5_isAuthenticated_characterization.2 noTypeState userNoType rfl rfl

/-- C6: the compatibility check never defaults to permissive: with a missing
principal or missing `resourceType` it returns the fixed fail-closed result
without consulting the remote service, and when the remote check cannot be
completed it returns `isCompatible = false` with the warning
`Unable to validate ResourceType constraints`. -/
theorem C6_compatibility_fails_closed :
    (∀ (st : AuthState) (target : ResourceType) (operation : String)
        (remote : RemoteCompatOutcome),
      (st.currentUser = none ∨
        ∃ user, st.currentUser = some user ∧ user.resourceType = none) →
      checkResourceTypeCompatibility st target operation remote =
        { result := { isCompatible := false
                      restrictions := ["No authenticated user or ResourceType"]
                      warnings := ["Authentication required"]
                      recommendations := ["Please log in first"] }
          remoteCalled := false }) ∧
    (∀ (st : AuthState) (user : AuthUser) (rt : ResourceType)
        (target : ResourceType) (operation : String),
      st.currentUser = some user → user.resourceType = some rt →
      checkResourceTypeCompatibility st target operation
          RemoteCompatOutcome.failure =
        { result := { isCompatible := false
                      restrictions := ["Compatibility check failed"]
                      warnings := ["Unable to validate ResourceType constraints"]
                      recommendations := ["Contact system administrator"] }
          remoteCalled := true }) := by
  constructor
  · intro st target operation remote h
    rcases h with h | ⟨user, hc, hrt⟩
    · simp [checkResourceTypeCompatibility, h]
    · simp [checkResourceTypeCompatibility, hc, hrt]
  · intro st user rt target operation hc hrt
    simp [checkResourceTypeCompatibility, hc, hrt]

/-- Witness for C6: both fail-closed paths at concrete inputs — no session at
all, and the spec's `DataSource` → `ComputeResource` `compute.provision`
check with the remote service unreachable. -/
theorem C6_witness :
    checkResourceTypeCompatibility emptyState ResourceType.ComputeResource
        "compute.provision" RemoteCompatOutcome.failure =
      { result := { isCompatible := false
                    restrictions := ["No authenticated user or ResourceType"]
                    warnings := ["Authentication required"]
                    recommendations := ["Please log in first"] }
        remoteCalled := false } ∧
    checkResourceTypeCompatibility dsState ResourceType.ComputeResource
        "compute.provision" RemoteCompatOutcome.failure =
      { result := { isCompatible := false
                    restrictions := ["Compatibility check failed"]
                    warnings := ["Unable to validate ResourceType constraints"]
                    recommendations := ["Contact system administrator"] }
        remoteCalled := true } :=
  ⟨C6_compatibility_fails_closed.1 emptyState ResourceType.ComputeResource
      "compute.provision" RemoteCompatOutcome.failure (Or.inl rfl),
   C6_compatibility_fails_closed.2 dsState dsUser ResourceType.DataSource
      ResourceType.ComputeResource "compute.provision" rfl rfl⟩

/-- C7 counterexample: at a concrete provider-success response whose user
lacks a `resourceType`, login fails as the claim says, but the error is the
string `Invalid authentication response - missing ResourceType`, not the
claimed exact value `missing ResourceType`. -/
theorem C7_claim_counterexample :
    (loginStep emptyState (LoginOutcome.response true missingTypeResponse)).2.success
        = false ∧
    (loginStep emptyState (LoginOutcome.response true missingTypeResponse)).2.error ≠
      some "missing ResourceType" ∧
    (loginStep emptyState (LoginOutcome.response true missingTypeResponse)).2.error =
      some "Invalid authentication response - missing ResourceType" := by
  refine ⟨by decide, by decide, by decide⟩

/-- C7 (amended): when the provider reports success with a (nonempty) token
but the returned user lacks a `resourceType`, login returns
`success = false` with the error
`Invalid authentication response - missing ResourceType` (an error naming
the missing ResourceType), and the state is untouched: current principal,
auth token and all three storage slots keep their previous values. -/
theorem C7_login_missing_resourceType (st : AuthState) (ok : Bool)
    (result : AuthenticationResponse) (user : AuthUser) (token : String)
    (hok : ok = true) (hsuc : result.success = true)
    (hmfa : result.requiresMfa.getD false = false)
    (huser : result.user = some user) (htok : result.token = some token)
    (hne : (token == "") = false)
    (hrt : user.resourceType = none) :
    loginStep st (LoginOutcome.response ok result) =
      (st, { success := false, user := none, token := none, refreshToken := none,
             expiresAt := none, message := none,
             error := some "Invalid authentication response - missing ResourceType",
             requiresMfa := none }) := by
  have hv : validateUserResourceTypeConstraints user = ValidateOutcome.cleared := by
    unfold validateUserResourceTypeConstraints
    rw [hrt]
  simp [loginStep, hok, hsuc, hmfa, huser, htok, hne, hv]

/-- Witness for C7's amended theorem at the concrete missing-`resourceType`
response against the fresh service state. -/
theorem C7_witness :
    loginStep emptyState (LoginOutcome.response true missingTypeResponse) =
      (emptyState,
       { success := false, user := none, token := none, refreshToken := none,
         expiresAt := none, message := none,
         error := some "Invalid authentication response - missing ResourceType",
         requiresMfa := none }) :=
  C7_login_missing_resourceType emptyState true missingTypeResponse userNoType
    "token-x" rfl rfl rfl rfl rfl (by decide) rfl

/-- C8: constraint pruning is idempotent — filtering a permission list twice
through the restriction registry equals filtering it once, and a principal
already accepted by the enforcer passes a second enforcement unchanged and
without any pruning write. -/
theorem C8_pruning_idempotent :
    (∀ (rt : ResourceType) (perms : List String),
      prunePermissions rt (prunePermissions rt perms) = prunePermissions rt perms) ∧
    (∀ (user user' : AuthUser) (d : Bool),
      validateUserResourceTypeConstraints user = ValidateOutcome.accepted user' d →
      validateUserResourceTypeConstraints user' =
        ValidateOutcome.accepted user' false) := by
  constructor
  · intro rt perms
    unfold prunePermissions
    rw [List.filter_filter]
    simp
  · intro user user' d h
    exact validate_of_ok user' (validate_accepted_ok user user' d h)

/-- Witness for C8: enforcing the already-pruned service principal (obtained
by enforcing the raw one) changes nothing and prunes nothing. -/
theorem C8_witness :
    validateUserResourceTypeConstraints awsPrunedUser =
      ValidateOutcome.accepted awsPrunedUser false :=
  C8_pruning_idempotent.2 awsRawUser awsPrunedUser true (by decide)

/-- C9: `hasMinimumClearanceLevel required` holds exactly when a current
principal exists, has a clearance value, and that value meets the minimum
under the fixed ordinal ordering `Public = 1 < Internal = 2 <
Confidential = 3 < Restricted = 4`; a principal without a clearance value
never satisfies any minimum, and the comparator behaves monotonically on
the three spec examples. -/
theorem C9_clearance_characterization :
    (∀ (st : AuthState) (required : SecurityClearanceLevel),
      hasMinimumClearanceLevel st required = true ↔
        ∃ user level, st.currentUser = some user ∧
          user.clearanceLevel = some level ∧
          meetsMinimum level required = true) ∧
    meetsMinimum SecurityClearanceLevel.Confidential
      SecurityClearanceLevel.Internal = true ∧
    meetsMinimum SecurityClearanceLevel.Internal
      SecurityClearanceLevel.Confidential = false ∧
    meetsMinimum SecurityClearanceLevel.Restricted
      SecurityClearanceLevel.Restricted = true := by
  refine ⟨?_, by decide, by decide, by decide⟩
  intro st required
  cases hc : st.currentUser with
  | none => simp [hasMinimumClearanceLevel, hc]
  | some u =>
    cases hl : u.clearanceLevel with
    | none => simp [hasMinimumClearanceLevel, hc, hl]
    | some level => simp [hasMinimumClearanceLevel, meetsMinimum, hc, hl]

/-- Witness for C9: the clearance query instantiated at the `DataSource`
session (whose principal has `Internal` clearance). -/
theorem C9_witness :
    hasMinimumClearanceLevel dsState SecurityClearanceLevel.Internal = true ↔
      ∃ user level, dsState.currentUser = some user ∧
        user.clearanceLevel = some level ∧
        meetsMinimum level SecurityClearanceLevel.Internal = true :=
  C9_clearance_characterization.1 dsState SecurityClearanceLevel.Internal

/-- C10: when the current principal holds permission `p` but its
`resourceType` is absent, `hasPermission p` is true — the restriction
re-check is skipped without a `resourceType`, so this edge fails open. -/
theorem C10_hasPermission_fails_open_without_type
    (st : AuthState) (user : AuthUser) (permission : String)
    (hc : st.currentUser = some user) (hrt : user.resourceType = none)
    (hp : permission ∈ user.allowedPermissions) :
    hasPermission st permission = true := by
  unfold hasPermission
  rw [hc]
  simp [hrt, hp]

/-- Witness for C10: the typeless principal holds `ui.view` (a permission
that would be restricted for a service principal) and the query grants
it. -/
theorem C10_witness : hasPermission noTypeState "ui.view" = true :=
  C10_hasPermission_fails_open_without_type noTypeState userNoType "ui.view"
    rfl rfl (by decide)
